import Mathlib

/-!
Verification of the metoffice-api client (`metoffice/api.py`, `metoffice/const.py`)
against its specification.  Python values that can cross the coordinate-validation
boundary are modelled by `PyVal`; Python exceptions raised by the client are
modelled by `PyErr`; floats are modelled by rationals; timezone-aware datetimes
by an instant (seconds since epoch, UTC) together with a UTC offset.
-/

/-- Python values that may be passed to `set_coordinates` / stored in `apiparms`.
Python `bool` is a subclass of `int`, hence counts as a number. -/
inductive PyVal where
  | int (n : Int)
  | float (q : Rat)
  | str (s : String)
  | bool (b : Bool)
  | pynone
  deriving DecidableEq

/-- Exceptions raised by the client: `MetofficeError` (`api.py` line 16) and the
generic Python errors that uncaught operations can raise. -/
inductive PyErr where
  | metofficeError (msg : String)
  | typeError
  | attributeError (name : String)
  | indexError
  deriving DecidableEq

/-- `isinstance(value, (int, float))` — Python booleans are instances of `int`. -/
def PyVal.isNumber : PyVal → Bool
  | .int _ => true
  | .float _ => true
  | .bool _ => true
  | _ => false

/-- Numeric value used in comparisons (`True == 1`, `False == 0` in Python). -/
def PyVal.toRat : PyVal → Rat
  | .int n => (n : Rat)
  | .float q => q
  | .bool b => if b then 1 else 0
  | _ => 0

/-- `MetofficeClient._validate_coordinate` (api.py lines 51-55):
raise `MetofficeError` unless the value is a number within `[min_val, max_val]`;
otherwise return the value unchanged. -/
def validate_coordinate (value : PyVal) (minV maxV : Int) (coordType : String) :
    Except PyErr PyVal :=
  if value.isNumber ∧ (minV : Rat) ≤ value.toRat ∧ value.toRat ≤ (maxV : Rat) then
    .ok value
  else
    .error (.metofficeError
      (coordType ++ " must be a number between " ++ toString minV ++ " and "
        ++ toString maxV ++ "."))

/-- `apiparms` dataclass (const.py lines 26-35): mutable parameter store with
defaults; latitude and longitude start unset (`None`). -/
structure apiparms where
  latitude : Option PyVal := none
  longitude : Option PyVal := none
  dataSource : String := "BD1"
  excludeParameterMetadata : Bool := false
  includeLocationName : Bool := true
  deriving DecidableEq

/-- `MetofficeClient.set_coordinates` (api.py lines 57-66): the result of the
call (an error, if raised) together with the parameter store afterwards.  The
latitude field is assigned as soon as the latitude validates, before the
longitude is validated — exactly the statement order of the source. -/
def set_coordinates (p : apiparms) (latitude longitude : PyVal) :
    Option PyErr × apiparms :=
  match validate_coordinate latitude (-85) 85 "Latitude" with
  | .error e => (some e, p)
  | .ok la =>
    match validate_coordinate longitude (-180) 180 "Longitude" with
    | .error e => (some e, { p with latitude := some la })
    | .ok lo => (none, { p with latitude := some la, longitude := some lo })

/-- `WeatherCode` enum (const.py lines 38-73). -/
inductive WeatherCode where
  | NOT_AVAILABLE
  | TRACE_RAIN
  | CLEAR_NIGHT
  | SUNNY_DAY
  | PARTLY_CLOUDY_NIGHT
  | PARTLY_CLOUDY_DAY
  | NOT_USED
  | MIST
  | FOG
  | CLOUDY
  | OVERCAST
  | LIGHT_RAIN_SHOWER_NIGHT
  | LIGHT_RAIN_SHOWER_DAY
  | DRIZZLE
  | LIGHT_RAIN
  | HEAVY_RAIN_SHOWER_NIGHT
  | HEAVY_RAIN_SHOWER_DAY
  | HEAVY_RAIN
  | SLEET_SHOWER_NIGHT
  | SLEET_SHOWER_DAY
  | SLEET
  | HAIL_SHOWER_NIGHT
  | HAIL_SHOWER_DAY
  | HAIL
  | LIGHT_SNOW_SHOWER_NIGHT
  | LIGHT_SNOW_SHOWER_DAY
  | LIGHT_SNOW
  | HEAVY_SNOW_SHOWER_NIGHT
  | HEAVY_SNOW_SHOWER_DAY
  | HEAVY_SNOW
  | THUNDER_SHOWER_NIGHT
  | THUNDER_SHOWER_DAY
  | THUNDER
  deriving DecidableEq, Fintype

/-- A Python enum member value: either an integer or a string. -/
inductive EnumVal where
  | i (n : Int)
  | s (v : String)
  deriving DecidableEq

/-- The `value` of each `WeatherCode` member, exactly as in const.py lines 41-73. -/
def WeatherCode.value : WeatherCode → EnumVal
  | .NOT_AVAILABLE => .s "NA"
  | .TRACE_RAIN => .i (-1)
  | .CLEAR_NIGHT => .i 0
  | .SUNNY_DAY => .i 1
  | .PARTLY_CLOUDY_NIGHT => .i 2
  | .PARTLY_CLOUDY_DAY => .i 3
  | .NOT_USED => .i 4
  | .MIST => .i 5
  | .FOG => .i 6
  | .CLOUDY => .i 7
  | .OVERCAST => .i 8
  | .LIGHT_RAIN_SHOWER_NIGHT => .i 9
  | .LIGHT_RAIN_SHOWER_DAY => .i 10
  | .DRIZZLE => .i 11
  | .LIGHT_RAIN => .i 12
  | .HEAVY_RAIN_SHOWER_NIGHT => .i 13
  | .HEAVY_RAIN_SHOWER_DAY => .i 14
  | .HEAVY_RAIN => .i 15
  | .SLEET_SHOWER_NIGHT => .i 16
  | .SLEET_SHOWER_DAY => .i 17
  | .SLEET => .i 18
  | .HAIL_SHOWER_NIGHT => .i 19
  | .HAIL_SHOWER_DAY => .i 20
  | .HAIL => .i 21
  | .LIGHT_SNOW_SHOWER_NIGHT => .i 22
  | .LIGHT_SNOW_SHOWER_DAY => .i 23
  | .LIGHT_SNOW => .i 24
  | .HEAVY_SNOW_SHOWER_NIGHT => .i 25
  | .HEAVY_SNOW_SHOWER_DAY => .i 26
  | .HEAVY_SNOW => .i 27
  | .THUNDER_SHOWER_NIGHT => .i 28
  | .THUNDER_SHOWER_DAY => .i 29
  | .THUNDER => .i 30

/-- All members of the enum, in declaration order. -/
def WeatherCode.members : List WeatherCode :=
  [.NOT_AVAILABLE, .TRACE_RAIN, .CLEAR_NIGHT, .SUNNY_DAY, .PARTLY_CLOUDY_NIGHT,
   .PARTLY_CLOUDY_DAY, .NOT_USED, .MIST, .FOG, .CLOUDY, .OVERCAST,
   .LIGHT_RAIN_SHOWER_NIGHT, .LIGHT_RAIN_SHOWER_DAY, .DRIZZLE, .LIGHT_RAIN,
   .HEAVY_RAIN_SHOWER_NIGHT, .HEAVY_RAIN_SHOWER_DAY, .HEAVY_RAIN,
   .SLEET_SHOWER_NIGHT, .SLEET_SHOWER_DAY, .SLEET, .HAIL_SHOWER_NIGHT,
   .HAIL_SHOWER_DAY, .HAIL, .LIGHT_SNOW_SHOWER_NIGHT, .LIGHT_SNOW_SHOWER_DAY,
   .LIGHT_SNOW, .HEAVY_SNOW_SHOWER_NIGHT, .HEAVY_SNOW_SHOWER_DAY, .HEAVY_SNOW,
   .THUNDER_SHOWER_NIGHT, .THUNDER_SHOWER_DAY, .THUNDER]

/-- Python `WeatherCode(v)`: look a member up by its `value`. -/
def WeatherCode.ofValue (v : EnumVal) : Option WeatherCode :=
  WeatherCode.members.find? (fun c => c.value == v)

/-- Conversion from a raw integer weather code to the enum member. -/
def toWeatherCode (i : Int) : Option WeatherCode :=
  WeatherCode.ofValue (.i i)


/-- A timezone-aware Python datetime: UTC instant in seconds since the epoch,
plus the attached UTC offset in seconds. -/
structure PyDateTime where
  instant : Int
  offset : Int
  deriving DecidableEq

/-- `.date()` of an aware datetime: the calendar day of the local wall-clock
time, here as a day count (floor of local seconds over 86400). -/
def PyDateTime.localDate (t : PyDateTime) : Int :=
  (t.instant + t.offset).fdiv 86400

/-- `.replace(minute=0, second=0, microsecond=0)`: truncate the local wall-clock
time down to the hour, keeping the offset. -/
def PyDateTime.truncToHour (t : PyDateTime) : PyDateTime :=
  { t with instant := t.instant - (t.instant + t.offset).emod 3600 }

/-- Python `==` on aware datetimes compares the UTC instants only. -/
def PyDateTime.eqPy (a b : PyDateTime) : Bool :=
  a.instant == b.instant

/-- `Symbol` dataclass (const.py lines 76-79); named `MetSymbol` here because
`Symbol` is taken by Mathlib. -/
structure MetSymbol where
  value : String
  type : String
  deriving DecidableEq

/-- `Unit` dataclass (const.py lines 82-85); named `MetUnit` here because `Unit`
is taken by the Lean prelude. -/
structure MetUnit where
  label : String
  symbol : MetSymbol
  deriving DecidableEq

/-- `Parameter` dataclass (const.py lines 88-92). -/
structure Parameter where
  type : String
  description : String
  unit : MetUnit
  deriving DecidableEq

/-- `Location` dataclass (const.py lines 95-97). -/
structure Location where
  name : String
  deriving DecidableEq

/-- `Geometry` dataclass (const.py lines 100-103). -/
structure Geometry where
  type : String
  coordinates : List Rat
  deriving DecidableEq

/-- `APIParms` enum (const.py lines 16-23). -/
inductive APIParms where
  | DATASOURCE
  | EXCLUDEPARAMETERMETADATA
  | INCLUDELOCATIONNAME
  | LATITUDE
  | LONGITUDE
  deriving DecidableEq

/-- The `value` string of each `APIParms` member. -/
def APIParms.value : APIParms → String
  | .DATASOURCE => "dataSource"
  | .EXCLUDEPARAMETERMETADATA => "excludeParameterMetadata"
  | .INCLUDELOCATIONNAME => "includeLocationName"
  | .LATITUDE => "latitude"
  | .LONGITUDE => "longitude"

/-- `HourlyTimeSeries` dataclass (const.py lines 156-178); fields defaulted to
`None` in the source become `Option` fields defaulting to `none`. -/
structure HourlyTimeSeries where
  time : PyDateTime
  screenTemperature : Rat
  screenDewPointTemperature : Rat
  feelsLikeTemperature : Rat
  windSpeed10m : Rat
  windDirectionFrom10m : Int
  windGustSpeed10m : Rat
  visibility : Int
  screenRelativeHumidity : Rat
  mslp : Int
  uvIndex : Int
  significantWeatherCode : WeatherCode
  precipitationRate : Rat
  probOfPrecipitation : Int
  maxScreenAirTemp : Option Rat := none
  minScreenAirTemp : Option Rat := none
  totalPrecipAmount : Option Rat := none
  totalSnowAmount : Option Rat := none
  max10mWindGust : Option Rat := none
  deriving DecidableEq

/-- `DailyTimeSeries` dataclass (const.py lines 313-358). -/
structure DailyTimeSeries where
  time : PyDateTime
  midday10MWindSpeed : Option Rat := none
  midnight10MWindSpeed : Option Rat := none
  midday10MWindDirection : Option Int := none
  midnight10MWindDirection : Option Int := none
  midday10MWindGust : Option Rat := none
  midnight10MWindGust : Option Rat := none
  middayVisibility : Option Int := none
  midnightVisibility : Option Int := none
  middayRelativeHumidity : Option Rat := none
  midnightRelativeHumidity : Option Rat := none
  middayMslp : Option Int := none
  midnightMslp : Option Int := none
  nightSignificantWeatherCode : WeatherCode := .NOT_AVAILABLE
  dayMaxScreenTemperature : Option Rat := none
  nightMinScreenTemperature : Option Rat := none
  dayUpperBoundMaxTemp : Option Rat := none
  nightUpperBoundMinTemp : Option Rat := none
  dayLowerBoundMaxTemp : Option Rat := none
  nightLowerBoundMinTemp : Option Rat := none
  nightMinFeelsLikeTemp : Option Rat := none
  dayUpperBoundMaxFeelsLikeTemp : Option Rat := none
  nightUpperBoundMinFeelsLikeTemp : Option Rat := none
  dayLowerBoundMaxFeelsLikeTemp : Option Rat := none
  nightLowerBoundMinFeelsLikeTemp : Option Rat := none
  daySignificantWeatherCode : WeatherCode := .NOT_AVAILABLE
  dayMaxFeelsLikeTemp : Option Rat := none
  maxUvIndex : Option Int := none
  dayProbabilityOfPrecipitation : Option Int := none
  nightProbabilityOfPrecipitation : Option Int := none
  dayProbabilityOfSnow : Option Int := none
  nightProbabilityOfSnow : Option Int := none
  dayProbabilityOfHeavySnow : Option Int := none
  nightProbabilityOfHeavySnow : Option Int := none
  dayProbabilityOfRain : Option Int := none
  nightProbabilityOfRain : Option Int := none
  dayProbabilityOfHeavyRain : Option Int := none
  nightProbabilityOfHeavyRain : Option Int := none
  dayProbabilityOfHail : Option Int := none
  nightProbabilityOfHail : Option Int := none
  dayProbabilityOfSferics : Option Int := none
  nightProbabilityOfSferics : Option Int := none
  deriving DecidableEq

/-- `ThreeHourTimeSeries` dataclass (const.py lines 451-476). -/
structure ThreeHourTimeSeries where
  time : PyDateTime
  maxScreenAirTemp : Rat
  minScreenAirTemp : Rat
  max10mWindGust : Rat
  significantWeatherCode : WeatherCode
  totalPrecipAmount : Rat
  totalSnowAmount : Rat
  windSpeed10m : Rat
  windDirectionFrom10m : Int
  windGustSpeed10m : Rat
  visibility : Int
  mslp : Int
  screenRelativeHumidity : Rat
  feelsLikeTemp : Rat
  uvIndex : Int
  probOfPrecipitation : Int
  probOfSnow : Int
  probOfHeavySnow : Int
  probOfRain : Int
  probOfHeavyRain : Int
  probOfHail : Int
  probOfSferics : Int
  deriving DecidableEq

/-- `HourlyParameters` dataclass (const.py lines 106-129): the metadata record
for the hourly forecast variables. -/
structure HourlyParameters where
  screenTemperature : Parameter
  screenDewPointTemperature : Parameter
  feelsLikeTemperature : Parameter
  windSpeed10m : Parameter
  windDirectionFrom10m : Parameter
  windGustSpeed10m : Parameter
  visibility : Parameter
  screenRelativeHumidity : Parameter
  mslp : Parameter
  uvIndex : Parameter
  significantWeatherCode : Parameter
  precipitationRate : Parameter
  probOfPrecipitation : Parameter
  maxScreenAirTemp : Parameter
  minScreenAirTemp : Parameter
  totalPrecipAmount : Parameter
  totalSnowAmount : Parameter
  max10mWindGust : Parameter
  deriving DecidableEq

/-- `getattr` on a `HourlyParameters` instance: the slots of the dataclass are
exactly its declared fields; any other name raises `AttributeError`. -/
def getattrHourlyParameters (p : HourlyParameters) : String → Option Parameter
  | "screenTemperature" => some p.screenTemperature
  | "screenDewPointTemperature" => some p.screenDewPointTemperature
  | "feelsLikeTemperature" => some p.feelsLikeTemperature
  | "windSpeed10m" => some p.windSpeed10m
  | "windDirectionFrom10m" => some p.windDirectionFrom10m
  | "windGustSpeed10m" => some p.windGustSpeed10m
  | "visibility" => some p.visibility
  | "screenRelativeHumidity" => some p.screenRelativeHumidity
  | "mslp" => some p.mslp
  | "uvIndex" => some p.uvIndex
  | "significantWeatherCode" => some p.significantWeatherCode
  | "precipitationRate" => some p.precipitationRate
  | "probOfPrecipitation" => some p.probOfPrecipitation
  | "maxScreenAirTemp" => some p.maxScreenAirTemp
  | "minScreenAirTemp" => some p.minScreenAirTemp
  | "totalPrecipAmount" => some p.totalPrecipAmount
  | "totalSnowAmount" => some p.totalSnowAmount
  | "max10mWindGust" => some p.max10mWindGust
  | _ => none

/-- `DailyParameters` dataclass (const.py lines 217-263). -/
structure DailyParameters where
  midday10MWindSpeed : Parameter
  midnight10MWindSpeed : Parameter
  midday10MWindDirection : Parameter
  midnight10MWindDirection : Parameter
  midday10MWindGust : Parameter
  midnight10MWindGust : Parameter
  middayVisibility : Parameter
  midnightVisibility : Parameter
  middayRelativeHumidity : Parameter
  midnightRelativeHumidity : Parameter
  middayMslp : Parameter
  midnightMslp : Parameter
  daySignificantWeatherCode : Parameter
  nightSignificantWeatherCode : Parameter
  dayMaxScreenTemperature : Parameter
  nightMinScreenTemperature : Parameter
  dayUpperBoundMaxTemp : Parameter
  nightUpperBoundMinTemp : Parameter
  dayLowerBoundMaxTemp : Parameter
  nightLowerBoundMinTemp : Parameter
  nightMinFeelsLikeTemp : Parameter
  dayUpperBoundMaxFeelsLikeTemp : Parameter
  nightUpperBoundMinFeelsLikeTemp : Parameter
  dayLowerBoundMaxFeelsLikeTemp : Parameter
  nightLowerBoundMinFeelsLikeTemp : Parameter
  dayMaxFeelsLikeTemp : Parameter
  maxUvIndex : Parameter
  dayProbabilityOfPrecipitation : Parameter
  nightProbabilityOfPrecipitation : Parameter
  dayProbabilityOfSnow : Parameter
  nightProbabilityOfSnow : Parameter
  dayProbabilityOfHeavySnow : Parameter
  nightProbabilityOfHeavySnow : Parameter
  dayProbabilityOfRain : Parameter
  nightProbabilityOfRain : Parameter
  dayProbabilityOfHeavyRain : Parameter
  nightProbabilityOfHeavyRain : Parameter
  dayProbabilityOfHail : Parameter
  nightProbabilityOfHail : Parameter
  dayProbabilityOfSferics : Parameter
  nightProbabilityOfSferics : Parameter
  deriving DecidableEq

/-- `getattr` on a `DailyParameters` instance. -/
def getattrDailyParameters (p : DailyParameters) : String → Option Parameter
  | "midday10MWindSpeed" => some p.midday10MWindSpeed
  | "midnight10MWindSpeed" => some p.midnight10MWindSpeed
  | "midday10MWindDirection" => some p.midday10MWindDirection
  | "midnight10MWindDirection" => some p.midnight10MWindDirection
  | "midday10MWindGust" => some p.midday10MWindGust
  | "midnight10MWindGust" => some p.midnight10MWindGust
  | "middayVisibility" => some p.middayVisibility
  | "midnightVisibility" => some p.midnightVisibility
  | "middayRelativeHumidity" => some p.middayRelativeHumidity
  | "midnightRelativeHumidity" => some p.midnightRelativeHumidity
  | "middayMslp" => some p.middayMslp
  | "midnightMslp" => some p.midnightMslp
  | "daySignificantWeatherCode" => some p.daySignificantWeatherCode
  | "nightSignificantWeatherCode" => some p.nightSignificantWeatherCode
  | "dayMaxScreenTemperature" => some p.dayMaxScreenTemperature
  | "nightMinScreenTemperature" => some p.nightMinScreenTemperature
  | "dayUpperBoundMaxTemp" => some p.dayUpperBoundMaxTemp
  | "nightUpperBoundMinTemp" => some p.nightUpperBoundMinTemp
  | "dayLowerBoundMaxTemp" => some p.dayLowerBoundMaxTemp
  | "nightLowerBoundMinTemp" => some p.nightLowerBoundMinTemp
  | "nightMinFeelsLikeTemp" => some p.nightMinFeelsLikeTemp
  | "dayUpperBoundMaxFeelsLikeTemp" => some p.dayUpperBoundMaxFeelsLikeTemp
  | "nightUpperBoundMinFeelsLikeTemp" => some p.nightUpperBoundMinFeelsLikeTemp
  | "dayLowerBoundMaxFeelsLikeTemp" => some p.dayLowerBoundMaxFeelsLikeTemp
  | "nightLowerBoundMinFeelsLikeTemp" => some p.nightLowerBoundMinFeelsLikeTemp
  | "dayMaxFeelsLikeTemp" => some p.dayMaxFeelsLikeTemp
  | "maxUvIndex" => some p.maxUvIndex
  | "dayProbabilityOfPrecipitation" => some p.dayProbabilityOfPrecipitation
  | "nightProbabilityOfPrecipitation" => some p.nightProbabilityOfPrecipitation
  | "dayProbabilityOfSnow" => some p.dayProbabilityOfSnow
  | "nightProbabilityOfSnow" => some p.nightProbabilityOfSnow
  | "dayProbabilityOfHeavySnow" => some p.dayProbabilityOfHeavySnow
  | "nightProbabilityOfHeavySnow" => some p.nightProbabilityOfHeavySnow
  | "dayProbabilityOfRain" => some p.dayProbabilityOfRain
  | "nightProbabilityOfRain" => some p.nightProbabilityOfRain
  | "dayProbabilityOfHeavyRain" => some p.dayProbabilityOfHeavyRain
  | "nightProbabilityOfHeavyRain" => some p.nightProbabilityOfHeavyRain
  | "dayProbabilityOfHail" => some p.dayProbabilityOfHail
  | "nightProbabilityOfHail" => some p.nightProbabilityOfHail
  | "dayProbabilityOfSferics" => some p.dayProbabilityOfSferics
  | "nightProbabilityOfSferics" => some p.nightProbabilityOfSferics
  | _ => none

/-- `ThreeHourParameters` dataclass (const.py lines 399-421). -/
structure ThreeHourParameters where
  totalSnowAmount : Parameter
  visibility : Parameter
  probOfHail : Parameter
  windDirectionFrom10m : Parameter
  probOfHeavyRain : Parameter
  maxScreenAirTemp : Parameter
  feelsLikeTemp : Parameter
  probOfSferics : Parameter
  screenRelativeHumidity : Parameter
  windSpeed10m : Parameter
  probOfPrecipitation : Parameter
  probOfRain : Parameter
  max10mWindGust : Parameter
  significantWeatherCode : Parameter
  probOfHeavySnow : Parameter
  minScreenAirTemp : Parameter
  totalPrecipAmount : Parameter
  mslp : Parameter
  windGustSpeed10m : Parameter
  uvIndex : Parameter
  probOfSnow : Parameter
  deriving DecidableEq

/-- `getattr` on a `ThreeHourParameters` instance. -/
def getattrThreeHourParameters (p : ThreeHourParameters) : String → Option Parameter
  | "totalSnowAmount" => some p.totalSnowAmount
  | "visibility" => some p.visibility
  | "probOfHail" => some p.probOfHail
  | "windDirectionFrom10m" => some p.windDirectionFrom10m
  | "probOfHeavyRain" => some p.probOfHeavyRain
  | "maxScreenAirTemp" => some p.maxScreenAirTemp
  | "feelsLikeTemp" => some p.feelsLikeTemp
  | "probOfSferics" => some p.probOfSferics
  | "screenRelativeHumidity" => some p.screenRelativeHumidity
  | "windSpeed10m" => some p.windSpeed10m
  | "probOfPrecipitation" => some p.probOfPrecipitation
  | "probOfRain" => some p.probOfRain
  | "max10mWindGust" => some p.max10mWindGust
  | "significantWeatherCode" => some p.significantWeatherCode
  | "probOfHeavySnow" => some p.probOfHeavySnow
  | "minScreenAirTemp" => some p.minScreenAirTemp
  | "totalPrecipAmount" => some p.totalPrecipAmount
  | "mslp" => some p.mslp
  | "windGustSpeed10m" => some p.windGustSpeed10m
  | "uvIndex" => some p.uvIndex
  | "probOfSnow" => some p.probOfSnow
  | _ => none

/-- The `Properties` dataclasses (const.py lines 181-186, 361-366, 479-486):
structurally identical for the three kinds except for the time-series entry
type, which is the type parameter here. -/
structure Properties (τ : Type) where
  location : Location
  requestPointDistance : Rat
  modelRunDate : PyDateTime
  timeSeries : List τ
  deriving DecidableEq

/-- The `Features` dataclasses (const.py lines 189-193, 369-373, 489-501). -/
structure Features (τ : Type) where
  type : String
  geometry : Geometry
  properties : Properties τ
  deriving DecidableEq

/-- The `Response` dataclasses (const.py lines 196-200, 376-382, 504-515):
`parameters` defaults to `None` and is present only when metadata was not
excluded. -/
structure Response (τ π : Type) where
  type : String
  features : List (Features τ)
  parameters : Option (List π) := none
  deriving DecidableEq

abbrev HourlyResponse := Response HourlyTimeSeries HourlyParameters
abbrev DailyResponse := Response DailyTimeSeries DailyParameters
abbrev ThreeHourResponse := Response ThreeHourTimeSeries ThreeHourParameters

/-- `ForecastType` enum (const.py lines 540-544). -/
inductive ForecastType where
  | HOURLY
  | THREE_HOURLY
  | DAILY
  deriving DecidableEq

/-- The `value` string of each `ForecastType` member — the attribute name used
with `getattr`/`setattr` on `ForecastData` and `APIList`. -/
def ForecastType.value : ForecastType → String
  | .HOURLY => "Hourly"
  | .THREE_HOURLY => "ThreeHourly"
  | .DAILY => "Daily"

/-- The time-series entry type of each forecast kind. -/
abbrev TSOf : ForecastType → Type
  | .HOURLY => HourlyTimeSeries
  | .THREE_HOURLY => ThreeHourTimeSeries
  | .DAILY => DailyTimeSeries

/-- The parameter-metadata record type of each forecast kind. -/
abbrev ParamsOf : ForecastType → Type
  | .HOURLY => HourlyParameters
  | .THREE_HOURLY => ThreeHourParameters
  | .DAILY => DailyParameters

/-- The response type of each forecast kind. -/
abbrev ResponseOf (t : ForecastType) : Type :=
  Response (TSOf t) (ParamsOf t)

/-- `getattr(parameters_record, name)` dispatched on the forecast kind. -/
def getattrParams : (t : ForecastType) → ParamsOf t → String → Option Parameter
  | .HOURLY, p, n => getattrHourlyParameters p n
  | .THREE_HOURLY, p, n => getattrThreeHourParameters p n
  | .DAILY, p, n => getattrDailyParameters p n

/-- `ForecastData` dataclass (const.py lines 532-537): one slot per forecast
kind, each defaulting to `None`. -/
structure ForecastData where
  Hourly : Option HourlyResponse := none
  ThreeHourly : Option ThreeHourResponse := none
  Daily : Option DailyResponse := none
  deriving DecidableEq

/-- `getattr(self._forecast, forecast.value)`. -/
def ForecastData.getSlot (d : ForecastData) : (t : ForecastType) → Option (ResponseOf t)
  | .HOURLY => d.Hourly
  | .THREE_HOURLY => d.ThreeHourly
  | .DAILY => d.Daily

/-- `setattr(self._forecast, forecast.value, r)`. -/
def ForecastData.setSlot (d : ForecastData) : (t : ForecastType) → Option (ResponseOf t) → ForecastData
  | .HOURLY, r => { d with Hourly := r }
  | .THREE_HOURLY, r => { d with ThreeHourly := r }
  | .DAILY, r => { d with Daily := r }

/-- The `Endpoint` descriptor (constructed in const.py lines 203-214, 385-396,
518-529): path suffix, display name and accepted parameter list; the response
record type is the type parameter `ρ`. -/
structure Endpoint (ρ : Type) where
  endpoint : String
  name : String
  parms : List APIParms

/-- `Hourly` endpoint instance (const.py lines 203-214). -/
def Hourly : Endpoint HourlyResponse :=
  { endpoint := "sitespecific/v0/point/hourly"
    name := "Hourly Forecast"
    parms := [.DATASOURCE, .EXCLUDEPARAMETERMETADATA, .INCLUDELOCATIONNAME,
              .LATITUDE, .LONGITUDE] }

/-- `Daily` endpoint instance (const.py lines 385-396). -/
def Daily : Endpoint DailyResponse :=
  { endpoint := "sitespecific/v0/point/daily"
    name := "Daily Forecast"
    parms := [.DATASOURCE, .EXCLUDEPARAMETERMETADATA, .INCLUDELOCATIONNAME,
              .LATITUDE, .LONGITUDE] }

/-- `ThreeHourly` endpoint instance (const.py lines 518-529). -/
def ThreeHourly : Endpoint ThreeHourResponse :=
  { endpoint := "sitespecific/v0/point/three-hourly"
    name := "Three Hourly Forecast"
    parms := [.DATASOURCE, .EXCLUDEPARAMETERMETADATA, .INCLUDELOCATIONNAME,
              .LATITUDE, .LONGITUDE] }

/-- `Metoffice.url` (const.py line 571): the fixed base host. -/
def Metoffice.url : String := "https://data.hub.api.metoffice.gov.uk"

/-- `getattr(Metoffice.apilist, forecast.value)` — the `APIList` enum
(const.py lines 559-566) indexed by forecast kind. -/
def Metoffice.apilist : (t : ForecastType) → Endpoint (ResponseOf t)
  | .HOURLY => Hourly
  | .THREE_HOURLY => ThreeHourly
  | .DAILY => Daily

/-- `getattr(self._api.parameters, entry.value)`: the current value of one API
parameter, `none` when the Python attribute is `None`. -/
def apiparms.getParm (p : apiparms) : APIParms → Option PyVal
  | .DATASOURCE => some (.str p.dataSource)
  | .EXCLUDEPARAMETERMETADATA => some (.bool p.excludeParameterMetadata)
  | .INCLUDELOCATIONNAME => some (.bool p.includeLocationName)
  | .LATITUDE => p.latitude
  | .LONGITUDE => p.longitude

/-- The query mapping built in `MetofficeClient._call_api` (api.py lines
183-187): one entry per accepted parameter whose current value is not `None`,
keyed by the parameter's `value` string. -/
def call_api_params {ρ : Type} (p : apiparms) (api : Endpoint ρ) :
    List (String × PyVal) :=
  api.parms.filterMap (fun e => (p.getParm e).map (fun v => (e.value, v)))

/-- The URL built in `MetofficeClient._call_api` (api.py line 189). -/
def call_api_url {ρ : Type} (api : Endpoint ρ) : String :=
  Metoffice.url ++ "/" ++ api.endpoint

/-- The six-hour freshness threshold (`timedelta(hours=6)`), in seconds. -/
def sixHours : Int := 21600

/-- `MetofficeClient._get_forecast` (api.py lines 80-84), with the HTTP call
abstracted as an already-determined fetch outcome: on success the slot is
replaced with the parsed response; if `_call_api` raises, the assignment never
happens and the slot keeps its previous contents while the error propagates. -/
def get_forecast {τ π : Type} (slot : Option (Response τ π))
    (fetch : Except PyErr (Response τ π)) :
    Except PyErr Unit × Option (Response τ π) :=
  match fetch with
  | .ok r => (.ok (), some r)
  | .error e => (.error e, slot)

/-- `MetofficeClient._check_data` (api.py lines 68-78): if the slot holds a
response (`hasattr(data, "type")`) whose model run is less than six hours old,
keep it and do not fetch; otherwise delegate to `get_forecast`.  The `Nat`
component counts how many times the fetch was invoked. -/
def check_data {τ π : Type} (slot : Option (Response τ π)) (now : PyDateTime)
    (fetch : Except PyErr (Response τ π)) :
    Except PyErr Unit × Option (Response τ π) × Nat :=
  match slot with
  | some data =>
    match data.features with
    | f :: _ =>
      if now.instant - f.properties.modelRunDate.instant < sixHours then
        (.ok (), some data, 0)
      else
        let (r, s) := get_forecast (some data) fetch
        (r, s, 1)
    | [] => (.error .indexError, some data, 0)
  | none =>
    let (r, s) := get_forecast none fetch
    (r, s, 1)

/-- `_check_data` at the client level: operate on the slot selected by the
forecast kind, fetching from that kind's endpoint. -/
def check_data_client (d : ForecastData) (t : ForecastType) (now : PyDateTime)
    (fetch : (u : ForecastType) → Except PyErr (ResponseOf u)) :
    Except PyErr Unit × ForecastData × Nat :=
  let (r, s, n) := check_data (d.getSlot t) now (fetch t)
  (r, d.setSlot t s, n)

/-- `response.features[0].properties.location.name`; `IndexError` when the
feature list is empty. -/
def Response.locationName {τ π : Type} (r : Response τ π) : Except PyErr String :=
  match r.features with
  | f :: _ => .ok f.properties.location.name
  | [] => .error .indexError

/-- `response.features[0].geometry.coordinates[2]`. -/
def Response.heightOf {τ π : Type} (r : Response τ π) : Except PyErr Rat :=
  match r.features with
  | f :: _ =>
    match f.geometry.coordinates.get? 2 with
    | some h => .ok h
    | none => .error .indexError
  | [] => .error .indexError

/-- `response.features[0].properties.modelRunDate`. -/
def Response.modelRunDateOf {τ π : Type} (r : Response τ π) : Except PyErr PyDateTime :=
  match r.features with
  | f :: _ => .ok f.properties.modelRunDate
  | [] => .error .indexError

/-- `response.features[0].properties.timeSeries`. -/
def Response.timeSeriesOf {τ π : Type} (r : Response τ π) : Except PyErr (List τ) :=
  match r.features with
  | f :: _ => .ok f.properties.timeSeries
  | [] => .error .indexError

/-- `MetofficeClient.get_location` (api.py lines 126-134): refresh the selected
kind's slot if needed, then read the location name from it.  Reading an
attribute of an empty (`None`) slot would raise `AttributeError`. -/
def get_location (d : ForecastData) (now : PyDateTime)
    (fetch : (u : ForecastType) → Except PyErr (ResponseOf u))
    (forecast : ForecastType) : Except PyErr String × ForecastData :=
  let (r, d2, _) := check_data_client d forecast now fetch
  match r with
  | .error e => (.error e, d2)
  | .ok _ =>
    match d2.getSlot forecast with
    | some resp => (resp.locationName, d2)
    | none => (.error (.attributeError "features"), d2)

/-- `get_location` called with no argument: the Python default
`forecast=ForecastType.DAILY` is applied. -/
def get_location_noarg (d : ForecastData) (now : PyDateTime)
    (fetch : (u : ForecastType) → Except PyErr (ResponseOf u)) :
    Except PyErr String × ForecastData :=
  get_location d now fetch .DAILY

/-- `MetofficeClient.get_height` (api.py lines 136-144). -/
def get_height (d : ForecastData) (now : PyDateTime)
    (fetch : (u : ForecastType) → Except PyErr (ResponseOf u))
    (forecast : ForecastType) : Except PyErr Rat × ForecastData :=
  let (r, d2, _) := check_data_client d forecast now fetch
  match r with
  | .error e => (.error e, d2)
  | .ok _ =>
    match d2.getSlot forecast with
    | some resp => (resp.heightOf, d2)
    | none => (.error (.attributeError "features"), d2)

/-- `get_height` called with no argument (default `ForecastType.DAILY`). -/
def get_height_noarg (d : ForecastData) (now : PyDateTime)
    (fetch : (u : ForecastType) → Except PyErr (ResponseOf u)) :
    Except PyErr Rat × ForecastData :=
  get_height d now fetch .DAILY

/-- `MetofficeClient.get_model_run_date` (api.py lines 146-154). -/
def get_model_run_date (d : ForecastData) (now : PyDateTime)
    (fetch : (u : ForecastType) → Except PyErr (ResponseOf u))
    (forecast : ForecastType) : Except PyErr PyDateTime × ForecastData :=
  let (r, d2, _) := check_data_client d forecast now fetch
  match r with
  | .error e => (.error e, d2)
  | .ok _ =>
    match d2.getSlot forecast with
    | some resp => (resp.modelRunDateOf, d2)
    | none => (.error (.attributeError "features"), d2)

/-- `get_model_run_date` called with no argument (default `ForecastType.DAILY`). -/
def get_model_run_date_noarg (d : ForecastData) (now : PyDateTime)
    (fetch : (u : ForecastType) → Except PyErr (ResponseOf u)) :
    Except PyErr PyDateTime × ForecastData :=
  get_model_run_date d now fetch .DAILY

/-- `MetofficeClient.get_time_series` (api.py lines 86-94). -/
def get_time_series (d : ForecastData) (now : PyDateTime)
    (fetch : (u : ForecastType) → Except PyErr (ResponseOf u))
    (forecast : ForecastType) : Except PyErr (List (TSOf forecast)) × ForecastData :=
  let (r, d2, _) := check_data_client d forecast now fetch
  match r with
  | .error e => (.error e, d2)
  | .ok _ =>
    match d2.getSlot forecast with
    | some resp => (resp.timeSeriesOf, d2)
    | none => (.error (.attributeError "features"), d2)

/-- `MetofficeClient.get_todays_forecast` (api.py lines 96-104): the first
daily entry whose local calendar date equals the current local date; `None`
(here `none`) when no entry matches — the loop falls through. -/
def get_todays_forecast (d : ForecastData) (now : PyDateTime)
    (fetch : (u : ForecastType) → Except PyErr (ResponseOf u)) :
    Except PyErr (Option DailyTimeSeries) × ForecastData :=
  match get_time_series d now fetch .DAILY with
  | (.error e, d2) => (.error e, d2)
  | (.ok ts, d2) =>
    (.ok (ts.find? (fun entry => entry.time.localDate == now.localDate)), d2)

/-- `MetofficeClient.get_current_hour_forecast` (api.py lines 106-114): the
first hourly entry whose timestamp equals the current time truncated to the
hour (aware-datetime equality, i.e. equality of instants). -/
def get_current_hour_forecast (d : ForecastData) (now : PyDateTime)
    (fetch : (u : ForecastType) → Except PyErr (ResponseOf u)) :
    Except PyErr (Option HourlyTimeSeries) × ForecastData :=
  match get_time_series d now fetch .HOURLY with
  | (.error e, d2) => (.error e, d2)
  | (.ok ts, d2) =>
    (.ok (ts.find? (fun entry => entry.time.eqPy now.truncToHour)), d2)

/-- `MetofficeClient.get_parameter_description` (api.py lines 156-165):
`self._forecast.<kind>.parameters[0]` — subscripting `None` raises `TypeError`
when metadata was excluded — then `getattr(..., parameter).description`, where
an unknown name raises `AttributeError`. -/
def get_parameter_description (d : ForecastData) (now : PyDateTime)
    (fetch : (u : ForecastType) → Except PyErr (ResponseOf u))
    (forecast : ForecastType) (parameter : String) :
    Except PyErr String × ForecastData :=
  let (r, d2, _) := check_data_client d forecast now fetch
  match r with
  | .error e => (.error e, d2)
  | .ok _ =>
    match d2.getSlot forecast with
    | none => (.error (.attributeError "parameters"), d2)
    | some resp =>
      match resp.parameters with
      | none => (.error .typeError, d2)
      | some [] => (.error .indexError, d2)
      | some (p0 :: _) =>
        match getattrParams forecast p0 parameter with
        | none => (.error (.attributeError parameter), d2)
        | some par => (.ok par.description, d2)

/-- `MetofficeClient.get_parameter_unit` (api.py lines 167-176): as for the
description, but reading `.unit.symbol.type`. -/
def get_parameter_unit (d : ForecastData) (now : PyDateTime)
    (fetch : (u : ForecastType) → Except PyErr (ResponseOf u))
    (forecast : ForecastType) (parameter : String) :
    Except PyErr String × ForecastData :=
  let (r, d2, _) := check_data_client d forecast now fetch
  match r with
  | .error e => (.error e, d2)
  | .ok _ =>
    match d2.getSlot forecast with
    | none => (.error (.attributeError "parameters"), d2)
    | some resp =>
      match resp.parameters with
      | none => (.error .typeError, d2)
      | some [] => (.error .indexError, d2)
      | some (p0 :: _) =>
        match getattrParams forecast p0 parameter with
        | none => (.error (.attributeError parameter), d2)
        | some par => (.ok par.unit.symbol.type, d2)

/-- Is the error the client's single typed error class `MetofficeError`? -/
def PyErr.isMetofficeError : PyErr → Bool
  | .metofficeError _ => true
  | _ => false

/-- A concrete parameter-metadata value used to build test instances. -/
def sampleParameter : Parameter :=
  { type := "Parameter"
    description := "Screen temperature"
    unit := { label := "degrees Celsius", symbol := { value := "Cel", type := "C" } } }

/-- A concrete geometry: longitude, latitude, height. -/
def sampleGeometry : Geometry :=
  { type := "Point", coordinates := [-1/10, 103/2, 25] }

/-- A daily time-series entry with every defaulted field left at its default. -/
def sampleDailyEntry (t : PyDateTime) : DailyTimeSeries :=
  { time := t }

/-- An hourly time-series entry with concrete required fields. -/
def sampleHourlyEntry (t : PyDateTime) : HourlyTimeSeries :=
  { time := t
    screenTemperature := 10
    screenDewPointTemperature := 8
    feelsLikeTemperature := 9
    windSpeed10m := 5
    windDirectionFrom10m := 180
    windGustSpeed10m := 8
    visibility := 10000
    screenRelativeHumidity := 80
    mslp := 101200
    uvIndex := 1
    significantWeatherCode := .CLOUDY
    precipitationRate := 0
    probOfPrecipitation := 10 }

/-- A metadata record for the hourly kind with every field concrete. -/
def sampleHourlyParameters : HourlyParameters :=
  { screenTemperature := sampleParameter
    screenDewPointTemperature := sampleParameter
    feelsLikeTemperature := sampleParameter
    windSpeed10m := sampleParameter
    windDirectionFrom10m := sampleParameter
    windGustSpeed10m := sampleParameter
    visibility := sampleParameter
    screenRelativeHumidity := sampleParameter
    mslp := sampleParameter
    uvIndex := sampleParameter
    significantWeatherCode := sampleParameter
    precipitationRate := sampleParameter
    probOfPrecipitation := sampleParameter
    maxScreenAirTemp := sampleParameter
    minScreenAirTemp := sampleParameter
    totalPrecipAmount := sampleParameter
    totalSnowAmount := sampleParameter
    max10mWindGust := sampleParameter }

/-- A daily feature with one model run and the given entries. -/
def sampleDailyFeature (modelRun : PyDateTime) (entries : List DailyTimeSeries) :
    Features DailyTimeSeries :=
  { type := "Feature"
    geometry := sampleGeometry
    properties := { location := { name := "London" }
                    requestPointDistance := 1
                    modelRunDate := modelRun
                    timeSeries := entries } }

/-- A daily response with exactly one feature. -/
def sampleDailyResponse (modelRun : PyDateTime) (entries : List DailyTimeSeries) :
    DailyResponse :=
  { type := "FeatureCollection"
    features := [sampleDailyFeature modelRun entries] }

/-- An hourly feature with one model run and the given entries. -/
def sampleHourlyFeature (modelRun : PyDateTime) (entries : List HourlyTimeSeries) :
    Features HourlyTimeSeries :=
  { type := "Feature"
    geometry := sampleGeometry
    properties := { location := { name := "London" }
                    requestPointDistance := 1
                    modelRunDate := modelRun
                    timeSeries := entries } }

/-- An hourly response with exactly one feature and optional metadata. -/
def sampleHourlyResponse (modelRun : PyDateTime) (entries : List HourlyTimeSeries)
    (meta : Option (List HourlyParameters)) : HourlyResponse :=
  { type := "FeatureCollection"
    features := [sampleHourlyFeature modelRun entries]
    parameters := meta }

/-- A fetch oracle that always fails: used where the cache must answer. -/
def failFetch : (u : ForecastType) → Except PyErr (ResponseOf u) :=
  fun _ => .error (.metofficeError "transport failure")

/-- A store holding a fresh daily and a fresh hourly response, each with an
empty time series. -/
def sliceStore : ForecastData :=
  { Daily := some (sampleDailyResponse { instant := 0, offset := 0 } [])
    Hourly := some (sampleHourlyResponse { instant := 0, offset := 0 } [] none) }

/-- A store holding a fresh hourly response carrying parameter metadata. -/
def metaStore : ForecastData :=
  { Hourly := some (sampleHourlyResponse { instant := 0, offset := 0 } []
      (some [sampleHourlyParameters])) }

/-- A store holding a fresh hourly response without parameter metadata
(metadata was excluded, `parameters` is `None`). -/
def noMetaStore : ForecastData :=
  { Hourly := some (sampleHourlyResponse { instant := 0, offset := 0 } [] none) }

/-- C4: for every defined integer weather code from -1 (trace rain) through 30
(thunder), converting the integer to the enum member and back yields the same
integer; the same integer always maps to the same member; and the
`NOT_AVAILABLE` sentinel has the distinct non-integer value `"NA"` and is never
produced by an integer conversion. -/
theorem weatherCode_roundtrip (i : Int) (h1 : -1 ≤ i) (h2 : i ≤ 30) :
    (∃ c, toWeatherCode i = some c ∧ WeatherCode.value c = EnumVal.i i) ∧
    (∀ c₁ c₂, toWeatherCode i = some c₁ → toWeatherCode i = some c₂ → c₁ = c₂) ∧
    toWeatherCode i ≠ some WeatherCode.NOT_AVAILABLE ∧
    WeatherCode.value WeatherCode.NOT_AVAILABLE = EnumVal.s "NA" := by
  interval_cases i <;> decide

/-- Witness for `weatherCode_roundtrip` at the boundary code -1. -/
theorem weatherCode_roundtrip_witness :
    (∃ c, toWeatherCode (-1) = some c ∧ WeatherCode.value c = EnumVal.i (-1)) ∧
    (∀ c₁ c₂, toWeatherCode (-1) = some c₁ → toWeatherCode (-1) = some c₂ → c₁ = c₂) ∧
    toWeatherCode (-1) ≠ some WeatherCode.NOT_AVAILABLE ∧
    WeatherCode.value WeatherCode.NOT_AVAILABLE = EnumVal.s "NA" :=
  weatherCode_roundtrip (-1) (by norm_num) (by norm_num)

/-- C3: for every (lat, lon) with lat in [-85, 85] and lon in [-180, 180],
`set_coordinates` succeeds (raises nothing) and afterwards the parameter store
holds exactly those values, so the request-parameter snapshot of every
forecast kind contains them. -/
theorem set_coordinates_valid (p : apiparms) (la lo : Rat)
    (hla1 : -85 ≤ la) (hla2 : la ≤ 85) (hlo1 : -180 ≤ lo) (hlo2 : lo ≤ 180) :
    set_coordinates p (.float la) (.float lo) =
      (none, { p with latitude := some (.float la), longitude := some (.float lo) }) ∧
    ∀ t : ForecastType,
      ("latitude", PyVal.float la) ∈
        call_api_params (set_coordinates p (.float la) (.float lo)).2 (Metoffice.apilist t) ∧
      ("longitude", PyVal.float lo) ∈
        call_api_params (set_coordinates p (.float la) (.float lo)).2 (Metoffice.apilist t) := by
  have h : set_coordinates p (.float la) (.float lo) =
      (none, { p with latitude := some (.float la), longitude := some (.float lo) }) := by
    simp only [set_coordinates, validate_coordinate, PyVal.isNumber, PyVal.toRat]
    norm_num [hla1, hla2, hlo1, hlo2]
  refine ⟨h, fun t => ?_⟩
  cases t <;>
    simp [h, call_api_params, Metoffice.apilist, Hourly, Daily, ThreeHourly,
      apiparms.getParm, APIParms.value]

/-- Witness for `set_coordinates_valid` at lat 51.5, lon -0.1. -/
theorem set_coordinates_valid_witness :
    set_coordinates {} (.float (103/2)) (.float (-1/10)) =
      (none, { latitude := some (.float (103/2)), longitude := some (.float (-1/10)) }) ∧
    ∀ t : ForecastType,
      ("latitude", PyVal.float (103/2)) ∈
        call_api_params (set_coordinates {} (.float (103/2)) (.float (-1/10))).2 (Metoffice.apilist t) ∧
      ("longitude", PyVal.float (-1/10)) ∈
        call_api_params (set_coordinates {} (.float (103/2)) (.float (-1/10))).2 (Metoffice.apilist t) :=
  set_coordinates_valid {} (103/2) (-1/10) (by norm_num) (by norm_num) (by norm_num)
    (by norm_num)

/-- C1 counterexample: starting from stored coordinates (10, 20), calling
`set_coordinates` with a valid latitude 50 and an invalid longitude 200 raises
the error, yet the stored latitude no longer holds its prior value — the
update is partial, refuting atomicity on failure. -/
theorem set_coordinates_not_atomic :
    ((set_coordinates { latitude := some (.float 10), longitude := some (.float 20) }
        (.float 50) (.float 200)).1.isSome = true) ∧
    ((set_coordinates { latitude := some (.float 10), longitude := some (.float 20) }
        (.float 50) (.float 200)).2.latitude ≠ some (.float 10)) := by
  decide

/-- C1 amended: an invalid latitude fails with the invalid-coordinate error
before either field is mutated; a valid latitude with an invalid longitude
fails with the invalid-coordinate error and leaves the stored longitude at its
prior value, but the stored latitude has already been overwritten with the new
value — a partial update occurs in that case. -/
theorem set_coordinates_failure (p : apiparms) (lat lon : PyVal) :
    (¬ (lat.isNumber = true ∧ (-85 : Rat) ≤ lat.toRat ∧ lat.toRat ≤ 85) →
      set_coordinates p lat lon =
        (some (.metofficeError "Latitude must be a number between -85 and 85."), p)) ∧
    ((lat.isNumber = true ∧ (-85 : Rat) ≤ lat.toRat ∧ lat.toRat ≤ 85) →
      ¬ (lon.isNumber = true ∧ (-180 : Rat) ≤ lon.toRat ∧ lon.toRat ≤ 180) →
      set_coordinates p lat lon =
        (some (.metofficeError "Longitude must be a number between -180 and 180."),
          { p with latitude := some lat })) := by
  constructor
  · intro h
    simp only [set_coordinates, validate_coordinate]
    rw [if_neg]
    · rfl
    · push_cast
      exact h
  · intro h1 h2
    simp only [set_coordinates, validate_coordinate]
    rw [if_pos, if_neg]
    · rfl
    · push_cast
      exact h2
    · push_cast
      exact h1

/-- Witness for `set_coordinates_failure`: a non-numeric latitude fails without
mutation, and latitude 50 with longitude 200 fails after updating latitude. -/
theorem set_coordinates_failure_witness :
    (set_coordinates {} (.str "x") (.float 0) =
      (some (.metofficeError "Latitude must be a number between -85 and 85."), {})) ∧
    (set_coordinates {} (.float 50) (.float 200) =
      (some (.metofficeError "Longitude must be a number between -180 and 180."),
        { latitude := some (.float 50) })) :=
  ⟨(set_coordinates_failure {} (.str "x") (.float 0)).1 (by decide),
   (set_coordinates_failure {} (.float 50) (.float 200)).2 (by decide) (by decide)⟩

/-- C10: a non-number in either coordinate position raises the client's typed
`MetofficeError` whose message names the coordinate and its bounds (the
`isinstance` test short-circuits before any comparison, so no untyped
comparison error can occur); integer inputs within range are accepted exactly
like floats. -/
theorem set_coordinates_typed_error (p : apiparms) (bad : PyVal) (n lo : Int)
    (hbad : bad.isNumber = false) (hn1 : -85 ≤ n) (hn2 : n ≤ 85)
    (hlo1 : -180 ≤ lo) (hlo2 : lo ≤ 180) :
    set_coordinates p bad (.int lo) =
      (some (.metofficeError "Latitude must be a number between -85 and 85."), p) ∧
    set_coordinates p (.int n) bad =
      (some (.metofficeError "Longitude must be a number between -180 and 180."),
        { p with latitude := some (.int n) }) ∧
    set_coordinates p (.int n) (.int lo) =
      (none, { p with latitude := some (.int n), longitude := some (.int lo) }) := by
  have hnum : (PyVal.int n).isNumber = true ∧
      (-85 : Rat) ≤ (PyVal.int n).toRat ∧ (PyVal.int n).toRat ≤ 85 := by
    refine ⟨rfl, ?_, ?_⟩ <;> simp [PyVal.toRat] <;> exact_mod_cast (by assumption)
  have hlonum : (PyVal.int lo).isNumber = true ∧
      (-180 : Rat) ≤ (PyVal.int lo).toRat ∧ (PyVal.int lo).toRat ≤ 180 := by
    refine ⟨rfl, ?_, ?_⟩ <;> simp [PyVal.toRat] <;> exact_mod_cast (by assumption)
  refine ⟨?_, ?_, ?_⟩
  · simp only [set_coordinates, validate_coordinate]
    rw [if_neg]
    · rfl
    · push_cast
      simp [hbad]
  · simp only [set_coordinates, validate_coordinate]
    rw [if_pos, if_neg]
    · rfl
    · push_cast
      simp [hbad]
    · push_cast
      exact hnum
  · simp only [set_coordinates, validate_coordinate]
    rw [if_pos, if_pos]
    · push_cast
      exact hlonum
    · push_cast
      exact hnum

/-- Witness for `set_coordinates_typed_error` with the string "51" and the
in-range integers 51 and 0. -/
theorem set_coordinates_typed_error_witness :
    set_coordinates {} (.str "51") (.int 0) =
      (some (.metofficeError "Latitude must be a number between -85 and 85."), {}) ∧
    set_coordinates {} (.int 51) (.str "51") =
      (some (.metofficeError "Longitude must be a number between -180 and 180."),
        { latitude := some (.int 51) }) ∧
    set_coordinates {} (.int 51) (.int 0) =
      (none, { latitude := some (.int 51), longitude := some (.int 0) }) :=
  set_coordinates_typed_error {} (.str "51") 51 0 (by decide) (by norm_num)
    (by norm_num) (by norm_num) (by norm_num)

/-- Writing a kind's slot back with the value it already holds is a no-op. -/
theorem ForecastData.setSlot_getSlot (d : ForecastData) (t : ForecastType) :
    d.setSlot t (d.getSlot t) = d := by
  cases t <;> rfl

/-- Helper: the keys of the built query mapping are exactly the accepted
parameter keys whose current value is set, in order. -/
theorem call_api_params_keys {ρ : Type} (p : apiparms) (api : Endpoint ρ) :
    (call_api_params p api).map Prod.fst =
      (api.parms.filter (fun e => (p.getParm e).isSome)).map APIParms.value := by
  unfold call_api_params
  induction api.parms with
  | nil => rfl
  | cons e l ih => cases h : p.getParm e <;> simp [h, ih]

/-- C5: for every forecast kind, the query mapping contains exactly the
endpoint's accepted parameter keys whose current value is set (a pair is in
the mapping precisely when some accepted parameter with that key is set to
that value), the default store yields a query without latitude or longitude,
and the request URL is the fixed base host plus the descriptor's path. -/
theorem call_api_query_exact (p : apiparms) (t : ForecastType) :
    ((call_api_params p (Metoffice.apilist t)).map Prod.fst =
      ((Metoffice.apilist t).parms.filter (fun e => (p.getParm e).isSome)).map
        APIParms.value) ∧
    (∀ k v, (k, v) ∈ call_api_params p (Metoffice.apilist t) ↔
      ∃ e, e ∈ (Metoffice.apilist t).parms ∧ APIParms.value e = k ∧
        p.getParm e = some v) ∧
    (call_api_params {} (Metoffice.apilist t) =
      [("dataSource", .str "BD1"), ("excludeParameterMetadata", .bool false),
       ("includeLocationName", .bool true)]) ∧
    (call_api_url (Metoffice.apilist t) =
      Metoffice.url ++ "/" ++ (Metoffice.apilist t).endpoint) ∧
    call_api_url Hourly =
      "https://data.hub.api.metoffice.gov.uk/sitespecific/v0/point/hourly" ∧
    call_api_url Daily =
      "https://data.hub.api.metoffice.gov.uk/sitespecific/v0/point/daily" ∧
    call_api_url ThreeHourly =
      "https://data.hub.api.metoffice.gov.uk/sitespecific/v0/point/three-hourly" := by
  refine ⟨call_api_params_keys p _, ?_, ?_, rfl, rfl, rfl, rfl⟩
  · intro k v
    simp only [call_api_params, List.mem_filterMap, Option.map_eq_some']
    constructor
    · rintro ⟨e, he, w, hw, hkv⟩
      obtain ⟨hk, hv⟩ := Prod.mk.inj hkv
      exact ⟨e, he, hk, by rw [hw, hv]⟩
    · rintro ⟨e, he, hk, hv⟩
      exact ⟨e, he, v, hv, by rw [hk]⟩
  · cases t <;> rfl

/-- C2: for every forecast kind, a cached response whose model run is strictly
less than six hours old is returned without invoking the fetch; an empty slot
or one aged six hours or more invokes the fetch exactly once and stores its
result in the slot. -/
theorem check_data_freshness {τ π : Type} (data r : Response τ π)
    (f : Features τ) (rest : List (Features τ)) (now : PyDateTime)
    (hf : data.features = f :: rest) :
    (now.instant - f.properties.modelRunDate.instant < sixHours →
      check_data (some data) now (.ok r) = (.ok (), some data, 0)) ∧
    (sixHours ≤ now.instant - f.properties.modelRunDate.instant →
      check_data (some data) now (.ok r) = (.ok (), some r, 1)) ∧
    check_data none now (.ok r) = (.ok (), some r, 1) := by
  refine ⟨fun h => ?_, fun h => ?_, rfl⟩
  · simp [check_data, hf, h]
  · simp [check_data, hf, get_forecast, not_lt.mpr h]

/-- Witness for `check_data_freshness`: a model run at instant 0 is cached at
age 21599 s (5 h 59 min 59 s) and refetched at age 21600 s (6 h). -/
theorem check_data_freshness_witness :
    (check_data (some (sampleDailyResponse { instant := 0, offset := 0 } []))
        { instant := 21599, offset := 0 }
        (.ok (sampleDailyResponse { instant := 100, offset := 0 } [])) =
      (.ok (), some (sampleDailyResponse { instant := 0, offset := 0 } []), 0)) ∧
    (check_data (some (sampleDailyResponse { instant := 0, offset := 0 } []))
        { instant := 21600, offset := 0 }
        (.ok (sampleDailyResponse { instant := 100, offset := 0 } [])) =
      (.ok (), some (sampleDailyResponse { instant := 100, offset := 0 } []), 1)) ∧
    check_data none { instant := 21600, offset := 0 }
        (.ok (sampleDailyResponse { instant := 100, offset := 0 } [])) =
      (.ok (), some (sampleDailyResponse { instant := 100, offset := 0 } []), 1) :=
  ⟨(check_data_freshness (sampleDailyResponse { instant := 0, offset := 0 } [])
      (sampleDailyResponse { instant := 100, offset := 0 } [])
      (sampleDailyFeature { instant := 0, offset := 0 } []) []
      { instant := 21599, offset := 0 } rfl).1 (by decide),
   (check_data_freshness (sampleDailyResponse { instant := 0, offset := 0 } [])
      (sampleDailyResponse { instant := 100, offset := 0 } [])
      (sampleDailyFeature { instant := 0, offset := 0 } []) []
      { instant := 21600, offset := 0 } rfl).2.1 (by decide),
   (check_data_freshness (sampleDailyResponse { instant := 0, offset := 0 } [])
      (sampleDailyResponse { instant := 100, offset := 0 } [])
      (sampleDailyFeature { instant := 0, offset := 0 } []) []
      { instant := 21600, offset := 0 } rfl).2.2⟩

/-- C6: for every forecast kind whose slot would actually fetch (empty slot or
stale data), a failing fetch propagates its error to the caller and the whole
forecast store — in particular that kind's slot — keeps its previous state. -/
theorem fetch_failure_preserves_cache (d : ForecastData) (t : ForecastType)
    (now : PyDateTime) (fetch : (u : ForecastType) → Except PyErr (ResponseOf u))
    (e : PyErr) (hfe : fetch t = .error e)
    (hstale : d.getSlot t = none ∨
      ∃ r f rest, d.getSlot t = some r ∧ Response.features r = f :: rest ∧
        sixHours ≤ now.instant - f.properties.modelRunDate.instant) :
    (check_data_client d t now fetch).1 = .error e ∧
    (check_data_client d t now fetch).2.1 = d := by
  rcases hstale with h | ⟨r, f, rest, h, hfeat, hage⟩
  · have : check_data_client d t now fetch = (.error e, d.setSlot t (d.getSlot t), 1) := by
      simp [check_data_client, check_data, get_forecast, h, hfe]
    rw [this, ForecastData.setSlot_getSlot]
    exact ⟨rfl, rfl⟩
  · have : check_data_client d t now fetch = (.error e, d.setSlot t (d.getSlot t), 1) := by
      simp [check_data_client, check_data, get_forecast, h, hfeat, hfe, not_lt.mpr hage]
    rw [this, ForecastData.setSlot_getSlot]
    exact ⟨rfl, rfl⟩

/-- Witness for `fetch_failure_preserves_cache`: an empty store stays empty
when the daily fetch fails. -/
theorem fetch_failure_preserves_cache_witness :
    (check_data_client {} .DAILY { instant := 0, offset := 0 } failFetch).1 =
      .error (.metofficeError "transport failure") ∧
    (check_data_client {} .DAILY { instant := 0, offset := 0 } failFetch).2.1 =
      ({} : ForecastData) :=
  fetch_failure_preserves_cache {} .DAILY { instant := 0, offset := 0 } failFetch
    (.metofficeError "transport failure") rfl (Or.inl rfl)

/-- C7: with a fresh cached daily (resp. hourly) response, the today-slice
accessor returns the first entry whose local date equals the current local
date and the current-hour accessor the first entry whose instant equals the
current time truncated to the hour; when no entry matches, each returns `none`
(Python `None`) without raising; when one matches, that entry is returned. -/
theorem slice_not_found (d : ForecastData) (now : PyDateTime)
    (fetch : (u : ForecastType) → Except PyErr (ResponseOf u)) :
    (∀ (r : DailyResponse) (f : Features DailyTimeSeries)
        (rest : List (Features DailyTimeSeries)),
      d.Daily = some r → r.features = f :: rest →
      now.instant - f.properties.modelRunDate.instant < sixHours →
      get_todays_forecast d now fetch =
        (.ok (f.properties.timeSeries.find?
          (fun entry => entry.time.localDate == now.localDate)), d) ∧
      ((∀ entry ∈ f.properties.timeSeries, entry.time.localDate ≠ now.localDate) →
        get_todays_forecast d now fetch = (.ok none, d)) ∧
      (∀ entry, f.properties.timeSeries.find?
          (fun e2 => e2.time.localDate == now.localDate) = some entry →
        (get_todays_forecast d now fetch).1 = .ok (some entry) ∧
        entry.time.localDate = now.localDate)) ∧
    (∀ (r : HourlyResponse) (f : Features HourlyTimeSeries)
        (rest : List (Features HourlyTimeSeries)),
      d.Hourly = some r → r.features = f :: rest →
      now.instant - f.properties.modelRunDate.instant < sixHours →
      get_current_hour_forecast d now fetch =
        (.ok (f.properties.timeSeries.find?
          (fun entry => entry.time.eqPy now.truncToHour)), d) ∧
      ((∀ entry ∈ f.properties.timeSeries,
          entry.time.eqPy now.truncToHour = false) →
        get_current_hour_forecast d now fetch = (.ok none, d)) ∧
      (∀ entry, f.properties.timeSeries.find?
          (fun e2 => e2.time.eqPy now.truncToHour) = some entry →
        (get_current_hour_forecast d now fetch).1 = .ok (some entry) ∧
        entry.time.eqPy now.truncToHour = true)) := by
  constructor
  · intro r f rest hD hf hfresh
    have hd2 : d.setSlot .DAILY (some r) = d := by
      rw [← hD]
      exact d.setSlot_getSlot .DAILY
    have hts : get_time_series d now fetch .DAILY = (.ok f.properties.timeSeries, d) := by
      simp only [get_time_series, check_data_client]
      have hslot : d.getSlot .DAILY = some r := hD
      rw [hslot]
      simp only [check_data, hf, if_pos hfresh]
      rw [hd2, hslot]
      simp [Response.timeSeriesOf, hf]
    have hmain : get_todays_forecast d now fetch =
        (.ok (f.properties.timeSeries.find?
          (fun entry => entry.time.localDate == now.localDate)), d) := by
      simp [get_todays_forecast, hts]
    refine ⟨hmain, fun hnone => ?_, fun entry hfind => ?_⟩
    · have : f.properties.timeSeries.find?
          (fun entry => entry.time.localDate == now.localDate) = none := by
        apply List.find?_eq_none.mpr
        intro x hx
        simpa using hnone x hx
      rw [hmain, this]
    · have hp := List.find?_some hfind
      constructor
      · rw [hmain]
        simp [hfind]
      · simpa using hp
  · intro r f rest hH hf hfresh
    have hd2 : d.setSlot .HOURLY (some r) = d := by
      rw [← hH]
      exact d.setSlot_getSlot .HOURLY
    have hts : get_time_series d now fetch .HOURLY = (.ok f.properties.timeSeries, d) := by
      simp only [get_time_series, check_data_client]
      have hslot : d.getSlot .HOURLY = some r := hH
      rw [hslot]
      simp only [check_data, hf, if_pos hfresh]
      rw [hd2, hslot]
      simp [Response.timeSeriesOf, hf]
    have hmain : get_current_hour_forecast d now fetch =
        (.ok (f.properties.timeSeries.find?
          (fun entry => entry.time.eqPy now.truncToHour)), d) := by
      simp [get_current_hour_forecast, hts]
    refine ⟨hmain, fun hnone => ?_, fun entry hfind => ?_⟩
    · have : f.properties.timeSeries.find?
          (fun entry => entry.time.eqPy now.truncToHour) = none := by
        apply List.find?_eq_none.mpr
        intro x hx
        simp [hnone x hx]
      rw [hmain, this]
    · have hp := List.find?_some hfind
      constructor
      · rw [hmain]
        simp [hfind]
      · exact hp


/-- Witness for `slice_not_found`: empty time series yield `none`, no error. -/
theorem slice_not_found_witness :
    get_todays_forecast sliceStore { instant := 3600, offset := 0 } failFetch =
      (.ok none, sliceStore) ∧
    get_current_hour_forecast sliceStore { instant := 3600, offset := 0 } failFetch =
      (.ok none, sliceStore) :=
  ⟨((slice_not_found sliceStore { instant := 3600, offset := 0 } failFetch).1
      (sampleDailyResponse { instant := 0, offset := 0 } [])
      (sampleDailyFeature { instant := 0, offset := 0 } []) [] rfl rfl
      (by decide)).2.1 (by simp [sampleDailyFeature]),
   ((slice_not_found sliceStore { instant := 3600, offset := 0 } failFetch).2
      (sampleHourlyResponse { instant := 0, offset := 0 } [] none)
      (sampleHourlyFeature { instant := 0, offset := 0 } []) [] rfl rfl
      (by decide)).2.1 (by simp [sampleHourlyFeature])⟩


/-- C8 amended: with a fresh cached response, the description and unit lookups
raise the generic Python errors of the reflection-style access — `TypeError`
(subscripting `None`) when metadata was excluded, `AttributeError` when the
field name does not exist for that kind — neither being the client's typed
error; when the field exists they return the description and the unit symbol
type respectively. -/
theorem parameter_lookup_behaviour (d : ForecastData) (t : ForecastType)
    (now : PyDateTime) (fetch : (u : ForecastType) → Except PyErr (ResponseOf u))
    (r : ResponseOf t) (f : Features (TSOf t)) (rest : List (Features (TSOf t)))
    (name : String)
    (hslot : d.getSlot t = some r) (hf : r.features = f :: rest)
    (hfresh : now.instant - f.properties.modelRunDate.instant < sixHours) :
    (r.parameters = none →
      get_parameter_description d now fetch t name = (.error .typeError, d) ∧
      get_parameter_unit d now fetch t name = (.error .typeError, d) ∧
      PyErr.typeError.isMetofficeError = false) ∧
    (∀ p0 ps, r.parameters = some (p0 :: ps) →
      (getattrParams t p0 name = none →
        get_parameter_description d now fetch t name =
          (.error (.attributeError name), d) ∧
        get_parameter_unit d now fetch t name =
          (.error (.attributeError name), d) ∧
        (PyErr.attributeError name).isMetofficeError = false) ∧
      (∀ par, getattrParams t p0 name = some par →
        get_parameter_description d now fetch t name = (.ok par.description, d) ∧
        get_parameter_unit d now fetch t name = (.ok par.unit.symbol.type, d))) := by
  have hd2 : d.setSlot t (some r) = d := by
    rw [← hslot]
    exact d.setSlot_getSlot t
  have hcdc : check_data_client d t now fetch = (.ok (), d, 0) := by
    simp only [check_data_client]
    rw [hslot]
    simp only [check_data, hf, if_pos hfresh]
    rw [hd2]
  constructor
  · intro hpar
    refine ⟨?_, ?_, rfl⟩ <;>
      simp [get_parameter_description, get_parameter_unit, hcdc, hslot, hpar]
  · intro p0 ps hpar
    constructor
    · intro hga
      refine ⟨?_, ?_, rfl⟩ <;>
        simp [get_parameter_description, get_parameter_unit, hcdc, hslot, hpar, hga]
    · intro par hga
      constructor <;>
        simp [get_parameter_description, get_parameter_unit, hcdc, hslot, hpar, hga]

/-- C8 counterexample: on a metadata-free cached hourly response the
description lookup fails with the generic `TypeError`, and on an unknown field
name with a generic `AttributeError`; neither error is a typed
`UnknownParameter`-style client error (`MetofficeError`). -/
theorem parameter_lookup_untyped_counterexample :
    (get_parameter_description noMetaStore { instant := 60, offset := 0 } failFetch
        .HOURLY "mslp").1 = .error .typeError ∧
    PyErr.typeError.isMetofficeError = false ∧
    (get_parameter_description metaStore { instant := 60, offset := 0 } failFetch
        .HOURLY "nosuch").1 = .error (.attributeError "nosuch") ∧
    (PyErr.attributeError "nosuch").isMetofficeError = false :=
  ⟨rfl, rfl, rfl, rfl⟩

/-- Witness for `parameter_lookup_behaviour` on the hourly kind. -/
theorem parameter_lookup_behaviour_witness :
    (get_parameter_description noMetaStore { instant := 60, offset := 0 } failFetch
        .HOURLY "mslp" = (.error .typeError, noMetaStore)) ∧
    (get_parameter_description metaStore { instant := 60, offset := 0 } failFetch
        .HOURLY "nosuch" = (.error (.attributeError "nosuch"), metaStore)) ∧
    (get_parameter_description metaStore { instant := 60, offset := 0 } failFetch
        .HOURLY "mslp" = (.ok "Screen temperature", metaStore)) ∧
    (get_parameter_unit metaStore { instant := 60, offset := 0 } failFetch
        .HOURLY "mslp" = (.ok "C", metaStore)) :=
  ⟨((parameter_lookup_behaviour noMetaStore .HOURLY { instant := 60, offset := 0 }
      failFetch (sampleHourlyResponse { instant := 0, offset := 0 } [] none)
      (sampleHourlyFeature { instant := 0, offset := 0 } []) [] "mslp" rfl rfl
      (by decide)).1 rfl).1,
   (((parameter_lookup_behaviour metaStore .HOURLY { instant := 60, offset := 0 }
      failFetch (sampleHourlyResponse { instant := 0, offset := 0 } []
        (some [sampleHourlyParameters]))
      (sampleHourlyFeature { instant := 0, offset := 0 } []) [] "nosuch" rfl rfl
      (by decide)).2 sampleHourlyParameters [] rfl).1 rfl).1,
   (((parameter_lookup_behaviour metaStore .HOURLY { instant := 60, offset := 0 }
      failFetch (sampleHourlyResponse { instant := 0, offset := 0 } []
        (some [sampleHourlyParameters]))
      (sampleHourlyFeature { instant := 0, offset := 0 } []) [] "mslp" rfl rfl
      (by decide)).2 sampleHourlyParameters [] rfl).2 sampleParameter rfl).1,
   (((parameter_lookup_behaviour metaStore .HOURLY { instant := 60, offset := 0 }
      failFetch (sampleHourlyResponse { instant := 0, offset := 0 } []
        (some [sampleHourlyParameters]))
      (sampleHourlyFeature { instant := 0, offset := 0 } []) [] "mslp" rfl rfl
      (by decide)).2 sampleHourlyParameters [] rfl).2 sampleParameter rfl).2⟩

/-- The resulting store of `get_location` is always the store left by the
freshness check, whichever branch produced the result. -/
theorem get_location_state (d : ForecastData) (now : PyDateTime)
    (fetch : (u : ForecastType) → Except PyErr (ResponseOf u)) (t : ForecastType) :
    (get_location d now fetch t).2 = (check_data_client d t now fetch).2.1 := by
  unfold get_location
  rcases check_data_client d t now fetch with ⟨res, d2, n⟩
  dsimp only
  cases res with
  | error e => rfl
  | ok u => rcases h3 : d2.getSlot t with _ | resp <;> simp [h3]

/-- The daily freshness check never touches the hourly or three-hourly slots. -/
theorem check_data_client_daily_other_slots (d : ForecastData) (now : PyDateTime)
    (fetch : (u : ForecastType) → Except PyErr (ResponseOf u)) :
    (check_data_client d .DAILY now fetch).2.1.Hourly = d.Hourly ∧
    (check_data_client d .DAILY now fetch).2.1.ThreeHourly = d.ThreeHourly := by
  unfold check_data_client
  rcases check_data (d.getSlot .DAILY) now (fetch .DAILY) with ⟨res, s, n⟩
  exact ⟨rfl, rfl⟩

/-- C9: called with no forecast-kind argument, `get_location`, `get_height`
and `get_model_run_date` operate on the Daily kind: they equal the explicit
Daily calls, never touch the hourly or three-hourly slots, fetch the daily
endpoint exactly once when the daily slot is empty, and read the daily cached
response when it is fresh. -/
theorem default_forecast_is_daily (d : ForecastData) (now : PyDateTime)
    (fetch : (u : ForecastType) → Except PyErr (ResponseOf u)) :
    get_location_noarg d now fetch = get_location d now fetch .DAILY ∧
    get_height_noarg d now fetch = get_height d now fetch .DAILY ∧
    get_model_run_date_noarg d now fetch = get_model_run_date d now fetch .DAILY ∧
    ((get_location_noarg d now fetch).2.Hourly = d.Hourly ∧
      (get_location_noarg d now fetch).2.ThreeHourly = d.ThreeHourly) ∧
    (d.Daily = none →
      (check_data_client d .DAILY now fetch).2.2 = 1 ∧
      (get_location_noarg d now fetch).2.Daily = (get_forecast none (fetch .DAILY)).2) ∧
    (∀ (r : DailyResponse) (f : Features DailyTimeSeries)
        (rest : List (Features DailyTimeSeries)),
      d.Daily = some r → r.features = f :: rest →
      now.instant - f.properties.modelRunDate.instant < sixHours →
      get_location_noarg d now fetch = (r.locationName, d) ∧
      get_model_run_date_noarg d now fetch = (r.modelRunDateOf, d)) := by
  refine ⟨rfl, rfl, rfl, ?_, ?_, ?_⟩
  · rw [get_location_noarg, get_location_state]
    exact check_data_client_daily_other_slots d now fetch
  · intro h
    have hc : check_data_client d .DAILY now fetch =
        ((get_forecast none (fetch .DAILY)).1,
          d.setSlot .DAILY (get_forecast none (fetch .DAILY)).2, 1) := by
      cases hf2 : fetch .DAILY <;>
        simp [check_data_client, check_data, get_forecast, ForecastData.getSlot, h, hf2]
    refine ⟨by rw [hc], ?_⟩
    rw [get_location_noarg, get_location_state, hc]
    rfl
  · intro r f rest hD hf hfresh
    have hd2 : d.setSlot .DAILY (some r) = d := by
      rw [← hD]
      exact d.setSlot_getSlot .DAILY
    have hcdc : check_data_client d .DAILY now fetch = (.ok (), d, 0) := by
      simp only [check_data_client]
      have hslot : d.getSlot .DAILY = some r := hD
      rw [hslot]
      simp only [check_data, hf, if_pos hfresh]
      rw [hd2]
    constructor
    · simp [get_location_noarg, get_location, hcdc, ForecastData.getSlot, hD]
    · simp [get_model_run_date_noarg, get_model_run_date, hcdc, ForecastData.getSlot, hD]

/-- Witness for `default_forecast_is_daily` on an empty store. -/
theorem default_forecast_is_daily_witness :
    (check_data_client ({} : ForecastData) .DAILY { instant := 0, offset := 0 }
        failFetch).2.2 = 1 ∧
    (get_location_noarg {} { instant := 0, offset := 0 } failFetch).2.Daily =
      (get_forecast none (failFetch .DAILY)).2 :=
  (default_forecast_is_daily {} { instant := 0, offset := 0 } failFetch).2.2.2.2.1 rfl
